import Mathlib

set_option autoImplicit false

/-!
Verification of the `pyvista.plotting.camera` module: a thin wrapper class
`Camera` around a native visualization engine's camera object.  The wrapper
caches the position and focal point, mirrors a parallel-projection flag, and
validates the clipping range; everything else is delegation.

The wrapper's own code (from `src/pyvista/plotting/camera.py`) is embedded
faithfully below as pure state transitions on a `Camera` record; Python
exceptions become `Except PyErr`.  The engine (the external native camera the
wrapper inherits from) is not part of this repository; it is modelled from the
spec's description of its contract, with the position / focal-point stores
parameterized by arbitrary normalization functions so that "the engine's
canonical re-read" need not equal the input.
-/

namespace PyVista

/-- A 3D vector (x, y, z), with rational components standing for the
numeric values exchanged with the engine. -/
abbrev Vec3 := ℚ × ℚ × ℚ

/-- Python exceptions the wrapper can raise. -/
inductive PyErr where
  | valueError (msg : String)
  | indexError (msg : String)
deriving DecidableEq, Repr

/-- Modelled from the spec: the wrapped native camera engine (the external
collaborator of spec section 6, not part of this repository).  It holds the
camera quantities the wrapper exchanges with it, together with the engine's
internal normalization of stored positions and focal points (`normPos`,
`normFocus`) and an opaque zoom action on the view angle (`zoomFn`), since the
spec leaves those engine-internal behaviors unspecified. -/
structure Engine where
  normPos : Vec3 → Vec3
  normFocus : Vec3 → Vec3
  zoomFn : ℚ → ℚ → ℚ
  ePosition : Vec3
  eFocalPoint : Vec3
  eViewUp : Vec3
  eClippingRange : ℚ × ℚ
  eParallelProjection : Option Bool
  eModelTransformMatrix : List ℚ
  eThickness : ℚ
  eParallelScale : ℚ
  eViewAngle : ℚ
  eObservers : List Nat

namespace Engine

/-- Modelled from the spec: engine get of the camera position. -/
def GetPosition (e : Engine) : Vec3 := e.ePosition

/-- Modelled from the spec: engine set of the camera position; the engine
stores its own (possibly normalized) representation of the input. -/
def SetPosition (v : Vec3) (e : Engine) : Engine :=
  { e with ePosition := e.normPos v }

/-- Modelled from the spec: engine get of the focal point. -/
def GetFocalPoint (e : Engine) : Vec3 := e.eFocalPoint

/-- Modelled from the spec: engine set of the focal point; the engine stores
its own (possibly normalized) representation of the input. -/
def SetFocalPoint (v : Vec3) (e : Engine) : Engine :=
  { e with eFocalPoint := e.normFocus v }

/-- Modelled from the spec: engine get of the view-up vector. -/
def GetViewUp (e : Engine) : Vec3 := e.eViewUp

/-- Modelled from the spec: engine set of the view-up vector; per the spec's
up round-trip property the stored value is the one later read back. -/
def SetViewUp (v : Vec3) (e : Engine) : Engine :=
  { e with eViewUp := v }

/-- Modelled from the spec: engine get of the clipping range. -/
def GetClippingRange (e : Engine) : ℚ × ℚ := e.eClippingRange

/-- Modelled from the spec: engine set of the clipping range bounds. -/
def SetClippingRange (near far : ℚ) (e : Engine) : Engine :=
  { e with eClippingRange := (near, far) }

/-- Modelled from the spec: engine toggle of parallel projection; receives
the wrapper's flag as given. -/
def SetParallelProjection (flag : Option Bool) (e : Engine) : Engine :=
  { e with eParallelProjection := flag }

/-- Modelled from the spec: engine get of the 4x4 model transform matrix,
as the flat list of its 16 entries (the deep copy into a fresh array). -/
def GetModelTransformMatrix (e : Engine) : List ℚ := e.eModelTransformMatrix

/-- Modelled from the spec: engine set of the 4x4 model transform matrix
from the flat list of 16 entries (the deep copy out of the supplied array). -/
def SetModelTransformMatrix (m : List ℚ) (e : Engine) : Engine :=
  { e with eModelTransformMatrix := m }

/-- Modelled from the spec: engine get of the clipping-plane thickness. -/
def GetThickness (e : Engine) : ℚ := e.eThickness

/-- Modelled from the spec: engine set of the clipping-plane thickness. -/
def SetThickness (t : ℚ) (e : Engine) : Engine :=
  { e with eThickness := t }

/-- Modelled from the spec: engine get of the parallel scale. -/
def GetParallelScale (e : Engine) : ℚ := e.eParallelScale

/-- Modelled from the spec: engine set of the parallel scale. -/
def SetParallelScale (s : ℚ) (e : Engine) : Engine :=
  { e with eParallelScale := s }

/-- Modelled from the spec: engine zoom, acting on the view angle through
the engine's opaque zoom behavior. -/
def Zoom (z : ℚ) (e : Engine) : Engine :=
  { e with eViewAngle := e.zoomFn z e.eViewAngle }

/-- Squared Euclidean distance between the engine's position and focal
point. -/
def distSq (e : Engine) : ℚ :=
  (e.ePosition.1 - e.eFocalPoint.1) ^ 2 +
  (e.ePosition.2.1 - e.eFocalPoint.2.1) ^ 2 +
  (e.ePosition.2.2 - e.eFocalPoint.2.2) ^ 2

/-- Modelled from the spec: engine get of the position-to-focal-point
Euclidean distance. -/
noncomputable def GetDistance (e : Engine) : ℝ :=
  Real.sqrt (e.distSq : ℝ)

/-- Modelled from the spec: the teardown call removing every observer
registration the engine holds on this camera. -/
def RemoveAllObservers (e : Engine) : Engine :=
  { e with eObservers := [] }

end Engine

/-- The wrapper class `Camera` of `src/pyvista/plotting/camera.py`: the
underlying engine state (the inherited native camera), the two cached
vectors, the parallel-projection flag (an `Option Bool`, since the Python
flag is `Optional[bool]` and is stored uncoerced), and the back-reference
to an owning parent. -/
structure Camera where
  engine : Engine
  _position : Vec3
  _focus : Vec3
  _is_parallel_projection : Option Bool
  parent : Option Nat

namespace Camera

/-- `Camera.__init__`: initialize the cached position and focal point by
reading the engine's current values; the flag starts as `False`. -/
def init (e : Engine) : Camera :=
  { engine := e
    _position := e.GetPosition
    _focus := e.GetFocalPoint
    _is_parallel_projection := some false
    parent := none }

/-- `Camera.position` getter: returns the cached position. -/
def position (c : Camera) : Vec3 := c._position

/-- `Camera.position` setter: forwards to the engine, then re-reads and
caches the engine's value. -/
def position_set (v : Vec3) (c : Camera) : Camera :=
  let eng := c.engine.SetPosition v
  { c with engine := eng, _position := eng.GetPosition }

/-- `Camera.focal_point` getter: returns the cached focal point. -/
def focal_point (c : Camera) : Vec3 := c._focus

/-- `Camera.focal_point` setter: forwards to the engine, then re-reads and
caches the engine's value. -/
def focal_point_set (v : Vec3) (c : Camera) : Camera :=
  let eng := c.engine.SetFocalPoint v
  { c with engine := eng, _focus := eng.GetFocalPoint }

/-- `Camera.model_transform_matrix` getter: copies the engine's matrix into
a fresh value (no local cache). -/
def model_transform_matrix (c : Camera) : List ℚ :=
  c.engine.GetModelTransformMatrix

/-- `Camera.model_transform_matrix` setter: copies the supplied matrix into
an engine-native matrix and forwards it. -/
def model_transform_matrix_set (m : List ℚ) (c : Camera) : Camera :=
  { c with engine := c.engine.SetModelTransformMatrix m }

/-- `Camera.is_parallel_projection` (read-only property): returns the cached
flag, without querying the engine. -/
def is_parallel_projection (c : Camera) : Option Bool :=
  c._is_parallel_projection

/-- `Camera.distance` (read-only property): delegates to the engine. -/
noncomputable def distance (c : Camera) : ℝ := c.engine.GetDistance

/-- `Camera.thickness` getter: pure delegation. -/
def thickness (c : Camera) : ℚ := c.engine.GetThickness

/-- `Camera.thickness` setter: pure delegation. -/
def thickness_set (length : ℚ) (c : Camera) : Camera :=
  { c with engine := c.engine.SetThickness length }

/-- `Camera.parallel_scale` getter: pure delegation. -/
def parallel_scale (c : Camera) : ℚ := c.engine.GetParallelScale

/-- `Camera.parallel_scale` setter: pure delegation. -/
def parallel_scale_set (scale : ℚ) (c : Camera) : Camera :=
  { c with engine := c.engine.SetParallelScale scale }

/-- `Camera.zoom`: pure delegation, no return value. -/
def zoom (value : ℚ) (c : Camera) : Camera :=
  { c with engine := c.engine.Zoom value }

/-- `Camera.up(vector=None)`: with no argument returns the engine's view-up
vector; with an argument sets it and returns nothing (`None`). -/
def up (vector : Option Vec3) (c : Camera) : Option Vec3 × Camera :=
  match vector with
  | none => (some c.engine.GetViewUp, c)
  | some v => (none, { c with engine := c.engine.SetViewUp v })

/-- `Camera.enable_parallel_projection(flag=True)`: stores the flag as given
in the cache, then forwards it to the engine. -/
def enable_parallel_projection (flag : Option Bool) (c : Camera) : Camera :=
  let c1 := { c with _is_parallel_projection := flag }
  { c1 with engine := c1.engine.SetParallelProjection flag }

/-- `Camera.disable_parallel_projection`: enable with `False`. -/
def disable_parallel_projection (c : Camera) : Camera :=
  c.enable_parallel_projection (some false)

/-- `Camera.clipping_range` getter: pure delegation. -/
def clipping_range (c : Camera) : ℚ × ℚ :=
  c.engine.GetClippingRange

/-- Python list indexing `points[i]`: raises `IndexError` out of range. -/
def listIndex (points : List ℚ) (i : Nat) : Except PyErr ℚ :=
  match points.get? i with
  | none => .error (.indexError "list index out of range")
  | some x => .ok x

/-- `Camera.clipping_range` setter: indexes the argument at 0 and 1,
raises `ValueError` when the near point exceeds the far point, otherwise
forwards both bounds to the engine. -/
def clipping_range_set (points : List ℚ) (c : Camera) : Except PyErr Camera :=
  match listIndex points 0 with
  | .error err => .error err
  | .ok p0 =>
    match listIndex points 1 with
    | .error err => .error err
    | .ok p1 =>
      if p0 > p1 then
        .error (.valueError "Near point should lower than far point.")
      else
        .ok { c with engine := c.engine.SetClippingRange p0 p1 }

/-- The state after a `clipping_range = points` statement: on an exception
the raise happens before any mutation, so the camera is unchanged. -/
def clipping_range_apply (points : List ℚ) (c : Camera) : Camera :=
  match clipping_range_set points c with
  | .ok c1 => c1
  | .error _ => c

/-- `Camera.__del__`: removes all engine observers on this camera and clears
the back-reference to the owning parent. -/
def del (c : Camera) : Camera :=
  { c with engine := c.engine.RemoveAllObservers, parent := none }

end Camera

/-- The wrapper operations available on a constructed camera, used to
describe every reachable state. -/
inductive Op where
  | setPos (v : Vec3)
  | setFocus (v : Vec3)
  | setMatrix (m : List ℚ)
  | setThickness (t : ℚ)
  | setParallelScale (s : ℚ)
  | doZooming (z : ℚ)
  | upCall (arg : Option Vec3)
  | enablePP (f : Option Bool)
  | disablePP
  | setClip (pts : List ℚ)
  | delCall

/-- Apply one wrapper operation to a camera state. -/
def Op.apply (op : Op) (c : Camera) : Camera :=
  match op with
  | .setPos v => c.position_set v
  | .setFocus v => c.focal_point_set v
  | .setMatrix m => c.model_transform_matrix_set m
  | .setThickness t => c.thickness_set t
  | .setParallelScale s => c.parallel_scale_set s
  | .doZooming z => c.zoom z
  | .upCall a => (c.up a).2
  | .enablePP f => c.enable_parallel_projection f
  | .disablePP => c.disable_parallel_projection
  | .setClip pts => c.clipping_range_apply pts
  | .delCall => c.del

/-- Run a sequence of wrapper operations. -/
def runOps (ops : List Op) (c : Camera) : Camera :=
  ops.foldl (fun c1 op => op.apply c1) c

/-- The value last read back from the engine for the position: the initial
read-back, overwritten by the engine's stored value at each position setter. -/
def lastPosRead (norm : Vec3 → Vec3) (ops : List Op) (first : Vec3) : Vec3 :=
  ops.foldl (fun acc op =>
    match op with
    | .setPos v => norm v
    | _ => acc) first

/-- The value last read back from the engine for the focal point. -/
def lastFocusRead (norm : Vec3 → Vec3) (ops : List Op) (first : Vec3) : Vec3 :=
  ops.foldl (fun acc op =>
    match op with
    | .setFocus v => norm v
    | _ => acc) first

/-- A concrete engine whose normalizations are the identity and whose state
is at the usual native defaults, used for concrete test scenarios. -/
def testEngine : Engine :=
  { normPos := fun v => v
    normFocus := fun v => v
    zoomFn := fun _ a => a
    ePosition := (0, 0, 1)
    eFocalPoint := (0, 0, 0)
    eViewUp := (0, 1, 0)
    eClippingRange := (1/100, 1000)
    eParallelProjection := some false
    eModelTransformMatrix := [1, 0, 0, 0, 0, 1, 0, 0, 0, 0, 1, 0, 0, 0, 0, 1]
    eThickness := 1000
    eParallelScale := 1
    eViewAngle := 30
    eObservers := [] }

/-- A concrete camera built on `testEngine`. -/
def testCam : Camera := Camera.init testEngine

/-- The flat 16-entry form of the 4x4 identity matrix. -/
def idMatrix4 : List ℚ :=
  [1, 0, 0, 0, 0, 1, 0, 0, 0, 0, 1, 0, 0, 0, 0, 1]

/-- Helper: a successful clipping-range assignment only swaps the engine. -/
theorem clipping_range_set_ok_shape (pts : List ℚ) (c c1 : Camera)
    (h : Camera.clipping_range_set pts c = .ok c1) :
    ∃ p0 p1, c1 = { c with engine := c.engine.SetClippingRange p0 p1 } := by
  unfold Camera.clipping_range_set at h
  cases h0 : Camera.listIndex pts 0 with
  | error err => rw [h0] at h; exact absurd h (by simp)
  | ok p0 =>
    rw [h0] at h
    cases h1 : Camera.listIndex pts 1 with
    | error err => rw [h1] at h; exact absurd h (by simp)
    | ok p1 =>
      rw [h1] at h
      dsimp only at h
      by_cases hc : p0 > p1
      · rw [if_pos hc] at h; exact absurd h (by simp)
      · rw [if_neg hc] at h
        exact ⟨p0, p1, ((Except.ok.injEq _ _).mp h).symm⟩

/-- Helper: how one wrapper operation acts on the cached position, and the
fact that it never changes the engine's position normalization. -/
theorem apply_cachePos (op : Op) (c : Camera) :
    ((op.apply c)._position =
      (match op with
       | .setPos v => c.engine.normPos v
       | _ => c._position))
    ∧ (op.apply c).engine.normPos = c.engine.normPos := by
  cases op with
  | setPos v => exact ⟨rfl, rfl⟩
  | setFocus v => exact ⟨rfl, rfl⟩
  | setMatrix m => exact ⟨rfl, rfl⟩
  | setThickness t => exact ⟨rfl, rfl⟩
  | setParallelScale s => exact ⟨rfl, rfl⟩
  | doZooming z => exact ⟨rfl, rfl⟩
  | upCall a => cases a with
    | none => exact ⟨rfl, rfl⟩
    | some v => exact ⟨rfl, rfl⟩
  | enablePP f => exact ⟨rfl, rfl⟩
  | disablePP => exact ⟨rfl, rfl⟩
  | delCall => exact ⟨rfl, rfl⟩
  | setClip pts =>
    show (Camera.clipping_range_apply pts c)._position = c._position ∧
      (Camera.clipping_range_apply pts c).engine.normPos = c.engine.normPos
    unfold Camera.clipping_range_apply
    cases h : Camera.clipping_range_set pts c with
    | error err => exact ⟨rfl, rfl⟩
    | ok c1 =>
      obtain ⟨p0, p1, rfl⟩ := clipping_range_set_ok_shape pts c c1 h
      exact ⟨rfl, rfl⟩

/-- Helper: same as `apply_cachePos` for the focal-point cache. -/
theorem apply_cacheFocus (op : Op) (c : Camera) :
    ((op.apply c)._focus =
      (match op with
       | .setFocus v => c.engine.normFocus v
       | _ => c._focus))
    ∧ (op.apply c).engine.normFocus = c.engine.normFocus := by
  cases op with
  | setPos v => exact ⟨rfl, rfl⟩
  | setFocus v => exact ⟨rfl, rfl⟩
  | setMatrix m => exact ⟨rfl, rfl⟩
  | setThickness t => exact ⟨rfl, rfl⟩
  | setParallelScale s => exact ⟨rfl, rfl⟩
  | doZooming z => exact ⟨rfl, rfl⟩
  | upCall a => cases a with
    | none => exact ⟨rfl, rfl⟩
    | some v => exact ⟨rfl, rfl⟩
  | enablePP f => exact ⟨rfl, rfl⟩
  | disablePP => exact ⟨rfl, rfl⟩
  | delCall => exact ⟨rfl, rfl⟩
  | setClip pts =>
    show (Camera.clipping_range_apply pts c)._focus = c._focus ∧
      (Camera.clipping_range_apply pts c).engine.normFocus = c.engine.normFocus
    unfold Camera.clipping_range_apply
    cases h : Camera.clipping_range_set pts c with
    | error err => exact ⟨rfl, rfl⟩
    | ok c1 =>
      obtain ⟨p0, p1, rfl⟩ := clipping_range_set_ok_shape pts c c1 h
      exact ⟨rfl, rfl⟩

/-- Helper: after any operation sequence, the cached position is the value
last read back from the engine. -/
theorem runOps_position (ops : List Op) (c : Camera) :
    (runOps ops c)._position = lastPosRead c.engine.normPos ops c._position := by
  induction ops generalizing c with
  | nil => rfl
  | cons op rest ih =>
    show (runOps rest (op.apply c))._position
        = lastPosRead c.engine.normPos (op :: rest) c._position
    rw [ih (op.apply c), (apply_cachePos op c).2, (apply_cachePos op c).1]
    rfl

/-- Helper: after any operation sequence, the cached focal point is the
value last read back from the engine. -/
theorem runOps_focus (ops : List Op) (c : Camera) :
    (runOps ops c)._focus = lastFocusRead c.engine.normFocus ops c._focus := by
  induction ops generalizing c with
  | nil => rfl
  | cons op rest ih =>
    show (runOps rest (op.apply c))._focus
        = lastFocusRead c.engine.normFocus (op :: rest) c._focus
    rw [ih (op.apply c), (apply_cacheFocus op c).2, (apply_cacheFocus op c).1]
    rfl

/-- C1: for every pair (near, far) given to the clipping_range setter, if
near > far the setter fails with the near/far ordering `ValueError` and the
camera (hence the prior clipping-range state) is left unchanged; if
near <= far the setter succeeds, forwards both bounds, and a subsequent
read of clipping_range returns (near, far). -/
theorem C1_clipping_range_validation (c : Camera) (near far : ℚ) :
    (near > far →
      Camera.clipping_range_set [near, far] c
          = .error (.valueError "Near point should lower than far point.")
        ∧ Camera.clipping_range_apply [near, far] c = c)
    ∧ (near ≤ far →
      Camera.clipping_range_set [near, far] c
          = .ok (Camera.clipping_range_apply [near, far] c)
        ∧ (Camera.clipping_range_apply [near, far] c).clipping_range
            = (near, far)) := by
  constructor
  · intro h
    have hset : Camera.clipping_range_set [near, far] c
        = .error (.valueError "Near point should lower than far point.") := by
      unfold Camera.clipping_range_set Camera.listIndex
      simp [h]
    refine ⟨hset, ?_⟩
    unfold Camera.clipping_range_apply
    rw [hset]
  · intro h
    have hnot : ¬ near > far := not_lt.mpr h
    have hset : Camera.clipping_range_set [near, far] c
        = .ok { c with engine := c.engine.SetClippingRange near far } := by
      unfold Camera.clipping_range_set Camera.listIndex
      simp [hnot]
    have happ : Camera.clipping_range_apply [near, far] c
        = { c with engine := c.engine.SetClippingRange near far } := by
      unfold Camera.clipping_range_apply
      rw [hset]
    rw [happ, hset]
    exact ⟨rfl, rfl⟩

/-- Witness for C1 at the concrete pairs (2, 1) and (1, 2). -/
theorem C1_clipping_range_validation_witness :
    ((2 : ℚ) > 1)
    ∧ (Camera.clipping_range_set [2, 1] testCam
          = .error (.valueError "Near point should lower than far point.")
        ∧ Camera.clipping_range_apply [2, 1] testCam = testCam)
    ∧ ((1 : ℚ) ≤ 2)
    ∧ (Camera.clipping_range_set [1, 2] testCam
          = .ok (Camera.clipping_range_apply [1, 2] testCam)
        ∧ (Camera.clipping_range_apply [1, 2] testCam).clipping_range
            = (1, 2)) :=
  ⟨by norm_num,
   (C1_clipping_range_validation testCam 2 1).1 (by norm_num),
   by norm_num,
   (C1_clipping_range_validation testCam 1 2).2 (by norm_num)⟩

/-- C2: setting position = v forwards v to the engine and re-reads and
caches the engine's value, so a subsequent read of position returns the
engine's canonical re-read of v (not merely the input); when the engine's
normalization is idempotent, the read value is a fixed point of one more
set/read round-trip.  The same contract holds for focal_point. -/
theorem C2_position_focal_roundtrip (c : Camera) (v : Vec3) :
    (c.position_set v).position = (c.position_set v).engine.GetPosition
    ∧ (c.position_set v).position = c.engine.normPos v
    ∧ ((∀ w, c.engine.normPos (c.engine.normPos w) = c.engine.normPos w) →
        ((c.position_set v).position_set
            ((c.position_set v).position)).position
          = (c.position_set v).position)
    ∧ (c.focal_point_set v).focal_point
        = (c.focal_point_set v).engine.GetFocalPoint
    ∧ (c.focal_point_set v).focal_point = c.engine.normFocus v
    ∧ ((∀ w, c.engine.normFocus (c.engine.normFocus w) = c.engine.normFocus w) →
        ((c.focal_point_set v).focal_point_set
            ((c.focal_point_set v).focal_point)).focal_point
          = (c.focal_point_set v).focal_point) := by
  refine ⟨rfl, rfl, ?_, rfl, rfl, ?_⟩
  · intro hid
    exact hid v
  · intro hid
    exact hid v

/-- Witness for C2 at the identity-normalizing test engine and v = (1,2,3). -/
theorem C2_position_focal_roundtrip_witness :
    (∀ w, testCam.engine.normPos (testCam.engine.normPos w)
        = testCam.engine.normPos w)
    ∧ ((testCam.position_set (1, 2, 3)).position_set
          ((testCam.position_set (1, 2, 3)).position)).position
        = (testCam.position_set (1, 2, 3)).position
    ∧ (∀ w, testCam.engine.normFocus (testCam.engine.normFocus w)
        = testCam.engine.normFocus w)
    ∧ ((testCam.focal_point_set (1, 2, 3)).focal_point_set
          ((testCam.focal_point_set (1, 2, 3)).focal_point)).focal_point
        = (testCam.focal_point_set (1, 2, 3)).focal_point :=
  ⟨fun _ => rfl,
   (C2_position_focal_roundtrip testCam (1, 2, 3)).2.2.1 (fun _ => rfl),
   fun _ => rfl,
   (C2_position_focal_roundtrip testCam (1, 2, 3)).2.2.2.2.2 (fun _ => rfl)⟩

/-- C3: at every state reachable from construction by wrapper operations,
the cached position and focal-point fields equal the value last read back
from the engine (the construction-time read, or the engine's stored value
right after the most recent corresponding setter), and the position and
focal_point getters return exactly these cached fields. -/
theorem C3_cache_invariant (e : Engine) (ops : List Op) :
    (runOps ops (Camera.init e))._position
        = lastPosRead e.normPos ops e.GetPosition
    ∧ (runOps ops (Camera.init e))._focus
        = lastFocusRead e.normFocus ops e.GetFocalPoint
    ∧ (∀ c : Camera, c.position = c._position ∧ c.focal_point = c._focus) :=
  ⟨runOps_position ops (Camera.init e),
   runOps_focus ops (Camera.init e),
   fun _ => ⟨rfl, rfl⟩⟩

/-- C4: is_parallel_projection returns the cached flag without querying the
engine; after enable_parallel_projection with its default True it is true,
after disable_parallel_projection it is false, and
disable_parallel_projection equals enable_parallel_projection(False). -/
theorem C4_parallel_projection_flag (c : Camera) :
    (c.enable_parallel_projection (some true)).is_parallel_projection
        = some true
    ∧ (c.disable_parallel_projection).is_parallel_projection = some false
    ∧ c.disable_parallel_projection = c.enable_parallel_projection (some false)
    ∧ c.is_parallel_projection = c._is_parallel_projection :=
  ⟨rfl, rfl, rfl, rfl⟩

/-- C5: up is dual-mode by arity: with no argument it returns the engine's
current up-vector (the engine default right after construction) and leaves
the state unchanged; with an argument v it returns nothing, and a
subsequent no-argument call returns v. -/
theorem C5_up_dual_mode (c : Camera) (v : Vec3) (e : Engine) :
    (c.up none).1 = some c.engine.GetViewUp
    ∧ (c.up none).2 = c
    ∧ (c.up (some v)).1 = none
    ∧ (((c.up (some v)).2).up none).1 = some v
    ∧ ((Camera.init e).up none).1 = some e.eViewUp :=
  ⟨rfl, rfl, rfl, rfl, rfl⟩

/-- C6: writing the 4x4 identity matrix through the model_transform_matrix
setter and reading it back returns the identity matrix; the round-trip in
fact preserves every matrix, the getter reads the engine's matrix with no
local cache, and the setter leaves the wrapper's cached fields untouched. -/
theorem C6_model_transform_roundtrip (c : Camera) (m : List ℚ) :
    (c.model_transform_matrix_set idMatrix4).model_transform_matrix
        = idMatrix4
    ∧ (c.model_transform_matrix_set m).model_transform_matrix = m
    ∧ c.model_transform_matrix = c.engine.eModelTransformMatrix
    ∧ (c.model_transform_matrix_set m)._position = c._position
    ∧ (c.model_transform_matrix_set m)._focus = c._focus :=
  ⟨rfl, rfl, rfl, rfl, rfl⟩

/-- C7: after construction, setting position = (1,2,3) and
focal_point = (0,0,0), the distance property delegates to the engine and
returns sqrt(14), which lies strictly between 3.741 and 3.743. -/
theorem C7_distance_scenario :
    ((testCam.position_set (1, 2, 3)).focal_point_set (0, 0, 0)).distance
        = Real.sqrt 14
    ∧ (3741 / 1000 : ℝ)
        < ((testCam.position_set (1, 2, 3)).focal_point_set (0, 0, 0)).distance
    ∧ ((testCam.position_set (1, 2, 3)).focal_point_set (0, 0, 0)).distance
        < (3743 / 1000 : ℝ)
    ∧ (∀ c : Camera, c.distance = c.engine.GetDistance) := by
  have hsq : ((testCam.position_set (1, 2, 3)).focal_point_set
      (0, 0, 0)).engine.distSq = 14 := by
    norm_num [testCam, testEngine, Camera.init, Camera.position_set,
      Camera.focal_point_set, Engine.SetPosition, Engine.SetFocalPoint,
      Engine.GetPosition, Engine.GetFocalPoint, Engine.distSq]
  have hd : ((testCam.position_set (1, 2, 3)).focal_point_set
      (0, 0, 0)).distance = Real.sqrt 14 := by
    unfold Camera.distance Engine.GetDistance
    rw [hsq]
    norm_num
  refine ⟨hd, ?_, ?_, fun _ => rfl⟩
  · rw [hd, show (3741 / 1000 : ℝ) = Real.sqrt ((3741 / 1000) ^ 2) by
      rw [Real.sqrt_sq (by norm_num)]]
    exact Real.sqrt_lt_sqrt (by positivity) (by norm_num)
  · rw [hd, show (3743 / 1000 : ℝ) = Real.sqrt ((3743 / 1000) ^ 2) by
      rw [Real.sqrt_sq (by norm_num)]]
    exact Real.sqrt_lt_sqrt (by norm_num) (by norm_num)

/-- C8: teardown removes every observer registration the engine holds on
this camera and clears the back-reference to the owning parent. -/
theorem C8_teardown_cleanup (c : Camera) :
    (c.del).engine.eObservers = [] ∧ (c.del).parent = none :=
  ⟨rfl, rfl⟩

/-- C9: enable_parallel_projection stores its argument into the cached flag
uncoerced, so for every flag value f (including None) the read-only
is_parallel_projection subsequently returns f itself; in particular after
enable_parallel_projection(None) it returns the non-boolean None. -/
theorem C9_flag_stored_uncoerced (c : Camera) (f : Option Bool) :
    (c.enable_parallel_projection f).is_parallel_projection = f
    ∧ (c.enable_parallel_projection none).is_parallel_projection = none
    ∧ ((c.enable_parallel_projection none).is_parallel_projection).isSome
        = false :=
  ⟨rfl, rfl, rfl⟩

/-- C10: the clipping_range setter indexes its argument at 0 and 1 without
guarding: the empty sequence and every one-element sequence make it fail
with the IndexError (not the near/far ValueError) leaving the camera
unchanged, and on any sequence of length at least two only the first two
elements matter. -/
theorem C10_clipping_range_indexing (c : Camera) (x : ℚ) (l : List ℚ) :
    Camera.clipping_range_set [] c
        = .error (.indexError "list index out of range")
    ∧ Camera.clipping_range_set [x] c
        = .error (.indexError "list index out of range")
    ∧ Camera.clipping_range_apply [] c = c
    ∧ Camera.clipping_range_apply [x] c = c
    ∧ (2 ≤ l.length →
        Camera.clipping_range_set l c
          = Camera.clipping_range_set (l.take 2) c) := by
  refine ⟨rfl, rfl, rfl, rfl, ?_⟩
  intro h
  match l, h with
  | a :: b :: rest, _ => rfl

/-- Witness for C10 at the concrete list [5, 7, 9]. -/
theorem C10_clipping_range_indexing_witness :
    2 ≤ ([5, 7, 9] : List ℚ).length
    ∧ Camera.clipping_range_set [5, 7, 9] testCam
        = Camera.clipping_range_set (([5, 7, 9] : List ℚ).take 2) testCam :=
  ⟨by norm_num,
   (C10_clipping_range_indexing testCam 0 [5, 7, 9]).2.2.2.2 (by norm_num)⟩

end PyVista
